import Mathlib

/-!
Shallow embedding of `src/main.py` of pycon-rwanda/air-quality-monitor.

Modelling choices:
* JSON values are an inductive `Json`; JSON numbers are carried as `Int`
  (the program never computes with them — the AQI index is an integer and
  the latitude/longitude values are only interpolated into a URL string).
* Python dynamic field access `data["k"]` / `data[0]` can raise
  (KeyError / IndexError / TypeError); it is embedded as `Except PyErr _`.
* The network is an abstract world `Http : String → Response` mapping a
  request URL to the provider's response; `response.json()` is the `body`
  field of `Response`.
* Side effects (outbound GETs, `print`, `time.sleep`) are recorded in an
  effect trace `List Eff` returned alongside the value, so statements about
  "no further request is issued" or "the thread sleeps once" are equalities
  on the trace.
* A Python function body that ends without `return` yields `None`; the
  overall result type of `get_air_quality` is therefore
  `Except PyErr (Option AQResult)` — `Except.error` for an uncaught
  exception, `Except.ok none` for the implicit-`None` fall-through.
-/

/-- A JSON value, as produced by `response.json()`. -/
inductive Json where
  | null : Json
  | num : Int → Json
  | str : String → Json
  | arr : List Json → Json
  | obj : List (String × Json) → Json
deriving Repr

/-- Python exceptions that dynamic field extraction can raise. -/
inductive PyErr where
  | keyError : String → PyErr
  | indexError : PyErr
  | typeError : PyErr
  | valueError : PyErr
deriving Repr, DecidableEq

/-- Python `data["k"]` for a string key: only succeeds on a JSON object that
has the key; a missing key raises `KeyError`, a non-object raises
`TypeError` (list/str indices must be integers) or, for a dict-like `0`
index, is covered by `getIdx`. -/
def Json.getField : Json → String → Except PyErr Json
  | .obj fields, k =>
    match fields.lookup k with
    | some v => .ok v
    | none => .error (.keyError k)
  | _, _ => .error .typeError

/-- Python `data[0]`: on a list, the first element (IndexError when empty);
on a string, its first character (IndexError when empty); on a dict, a
lookup of the integer key `0` (absent here, since JSON object keys are
strings — KeyError); otherwise TypeError. -/
def Json.getIdx0 : Json → Except PyErr Json
  | .arr xs =>
    match xs with
    | [] => .error .indexError
    | x :: _ => .ok x
  | .str s =>
    match s.data with
    | [] => .error .indexError
    | c :: _ => .ok (.str (String.mk [c]))
  | .obj _ => .error (.keyError "0")
  | _ => .error .typeError

mutual
/-- Python `str()` of a parsed JSON value, as used by f-string
interpolation and `print`. -/
def Json.pyStr : Json → String
  | .null => "None"
  | .num n => toString n
  | .str s => s
  | .arr xs => "[" ++ pyStrList xs ++ "]"
  | .obj fs => "\x7b" ++ pyStrFields fs ++ "\x7d"

def pyStrList : List Json → String
  | [] => ""
  | [x] => x.pyStr
  | x :: y :: xs => x.pyStr ++ ", " ++ pyStrList (y :: xs)

def pyStrFields : List (String × Json) → String
  | [] => ""
  | [(k, v)] => k ++ ": " ++ v.pyStr
  | (k, v) :: kv :: fs => k ++ ": " ++ v.pyStr ++ ", " ++ pyStrFields (kv :: fs)
end

/-- Python `==` between a dynamic JSON-derived value and an `int` literal:
true exactly when the value is that number. -/
def pyEqInt : Json → Int → Bool
  | .num n, k => n == k
  | _, _ => false

/-- `src/main.py` lines 111-147: `get_health_advisory(aqi)`.
The argument is dynamic (it is whatever was extracted from the provider's
JSON), so it is embedded over `Json`. -/
def get_health_advisory (aqi : Json) : String :=
  if pyEqInt aqi 1 then "Good: Air quality is satisfactory."
  else if pyEqInt aqi 2 then "Moderate: Air quality is acceptable."
  else if pyEqInt aqi 3 then
    "Unhealthy for Sensitive Groups: Some members may experience health effects."
  else if pyEqInt aqi 4 then "Unhealthy: Everyone may experience health effects."
  else if pyEqInt aqi 5 then "Very Unhealthy: Health alert for everyone."
  else "Hazardous: Health warning of emergency conditions."

/-- An HTTP response as seen through the `requests` library:
`status_code`, the header map, and the parsed JSON body. -/
structure Response where
  status_code : Nat
  headers : List (String × String)
  body : Json

/-- The external world: what `requests.get(url)` returns for each URL. -/
abbrev Http := String → Response

/-- Observable side effects of a request handling, in order. -/
inductive Eff where
  | httpGet : String → Eff
  | print : String → Eff
  | sleep : Int → Eff
deriving Repr, DecidableEq

/-- The hardcoded provider credential embedded in both outbound URLs
(`src/main.py` lines 44 and 88). -/
def hardcoded_api_key : String := "b3789908d94f6e8732447989b53907f9"

/-- `src/main.py` line 44: the geocoding URL built by f-string. -/
def geocode_url (location : String) : String :=
  "http://api.openweathermap.org/data/2.5/weather?q=" ++ location ++
    "&appid=" ++ hardcoded_api_key

/-- `src/main.py` line 88: the air-pollution URL built by f-string. -/
def aqi_url (lat lon : Json) : String :=
  "http://api.openweathermap.org/data/2.5/air_pollution?lat=" ++ lat.pyStr ++
    "&lon=" ++ lon.pyStr ++ "&appid=" ++ hardcoded_api_key

/-- The field extraction of `src/main.py` lines 53-54:
`data["coord"]["lat"]` then `data["coord"]["lon"]` (the second access of
`data["coord"]` is elided: `data` is unchanged between the two lines, so
the value and the first-failure order are identical). -/
def geocodeExtract (body : Json) : Except PyErr (Json × Json) := do
  let coord ← body.getField "coord"
  let lat ← coord.getField "lat"
  let lon ← coord.getField "lon"
  pure (lat, lon)

/-- `src/main.py` lines 33-60: `geocode_location(location)`.
Returns the value (`none` models Python `None`) and the effect trace. -/
def geocode_location (http : Http) (location : String) :
    Except PyErr (Option (Json × Json)) × List Eff :=
  let url := geocode_url location
  let response := http url
  if response.status_code = 200 then
    match geocodeExtract response.body with
    | .error e => (.error e, [Eff.httpGet url])
    | .ok (lat, lon) =>
      (.ok (some (lat, lon)),
        [Eff.httpGet url, Eff.print (lat.pyStr ++ " " ++ lon.pyStr)])
  else
    (.ok none, [Eff.httpGet url])

/-- The composed result dictionary of `get_air_quality`: either
`{"location": ..., "aqi": ..., "advisory": ...}` or `{"error": ...}`. -/
inductive AQResult where
  | reading : String → Json → String → AQResult
  | error : String → AQResult
deriving Repr

/-- The field extraction of `src/main.py` line 98:
`data["list"][0]["main"]["aqi"]`. -/
def extractAqi (body : Json) : Except PyErr Json := do
  let l ← body.getField "list"
  let e0 ← l.getIdx0
  let m ← e0.getField "main"
  m.getField "aqi"

/-- Decimal digit value of a character, when it is one of `0`-`9`. -/
def digitVal? (c : Char) : Option Nat :=
  if '0' ≤ c ∧ c ≤ '9' then some (c.toNat - '0'.toNat) else none

/-- Accumulate a decimal number over a digit list; `none` on a non-digit. -/
def digitsValAux : Nat → List Char → Option Nat
  | acc, [] => some acc
  | acc, c :: cs =>
    match digitVal? c with
    | some d => digitsValAux (acc * 10 + d) cs
    | none => none

/-- Strip leading and trailing whitespace from a character list. -/
def stripChars (cs : List Char) : List Char :=
  ((cs.dropWhile Char.isWhitespace).reverse.dropWhile Char.isWhitespace).reverse

/-- Python `int(s)` over the characters of `s`: surrounding whitespace is
ignored, an optional single sign precedes a nonempty digit run; anything
else is `none` (a `ValueError`). -/
def pyIntChars (cs : List Char) : Option Int :=
  match stripChars cs with
  | '-' :: rest =>
    if rest.isEmpty then none
    else (digitsValAux 0 rest).map (fun n => -(n : Int))
  | '+' :: rest =>
    if rest.isEmpty then none
    else (digitsValAux 0 rest).map (fun n => (n : Int))
  | rest =>
    if rest.isEmpty then none
    else (digitsValAux 0 rest).map (fun n => (n : Int))

/-- Python `int(s)` on a string (as applied to a `Retry-After` header):
a non-numeric string raises `ValueError`. -/
def pyInt (s : String) : Except PyErr Int :=
  match pyIntChars s.data with
  | some n => .ok n
  | none => .error .valueError

/-- `src/main.py` line 103: `int(response.headers.get('Retry-After', 10))` —
the integer `10` when the header is absent, otherwise the parsed header. -/
def retryAfterValue (headers : List (String × String)) : Except PyErr Int :=
  match headers.lookup "Retry-After" with
  | none => .ok 10
  | some s => pyInt s

/-- `src/main.py` lines 87-108: the part of `get_air_quality` after the
coordinates have been resolved — the air-pollution request and the
three-way status dispatch. `effs0` is the trace accumulated so far. -/
def fetch_aqi (http : Http) (location : String) (lat lon : Json)
    (effs0 : List Eff) : Except PyErr (Option AQResult) × List Eff :=
  let url := aqi_url lat lon
  let response := http url
  let effs := effs0 ++ [Eff.httpGet url]
  if response.status_code = 200 then
    match extractAqi response.body with
    | .error e => (.error e, effs)
    | .ok aqi =>
      (.ok (some (.reading location aqi (get_health_advisory aqi))), effs)
  else if response.status_code = 429 then
    match retryAfterValue response.headers with
    | .error e => (.error e, effs)
    | .ok retry_after =>
      (.ok none,
        effs ++
          [Eff.print ("Rate limit reached. Retrying in " ++
              toString retry_after ++ " seconds..."),
            Eff.sleep retry_after])
  else
    (.ok (some (.error "Could not fetch air quality data.")), effs)

/-- `src/main.py` lines 63-108: `get_air_quality(location)`. -/
def get_air_quality (http : Http) (location : String) :
    Except PyErr (Option AQResult) × List Eff :=
  match geocode_location http location with
  | (.error e, effs) => (.error e, effs)
  | (.ok none, effs) =>
    (.ok (some (.error
        "Could not fetch location coordinates. Please check the location name.")),
      effs)
  | (.ok (some (lat, lon)), effs) => fetch_aqi http location lat lon effs

/-- `src/main.py` lines 150-165: `gradio_interface(location)` — it calls
`get_air_quality` and returns its value unchanged. -/
def gradio_interface (http : Http) (location : String) :
    Except PyErr (Option AQResult) × List Eff :=
  get_air_quality http location

/-- `src/main.py` line 17: the module-level environment read
`os.getenv("OPENWEATHER_API_KEY")`. -/
def OPENWEATHER_API_KEY (env : String → Option String) : Option String :=
  env "OPENWEATHER_API_KEY"

/-- The whole request handling as a function of module state: the loaded
environment (`src/main.py` lines 11-17) is threaded in as `env` so that
dependence on it can be stated. The body of `get_air_quality` never
consults the `OPENWEATHER_API_KEY` global, exactly as in the source. -/
def get_air_quality_app (env : String → Option String) (http : Http)
    (location : String) : Except PyErr (Option AQResult) × List Eff :=
  let _ := OPENWEATHER_API_KEY env
  get_air_quality http location

/-! Concrete provider worlds used to witness the theorems below. -/

/-- A well-formed geocoding body: `coord.lat = 2`, `coord.lon = 30`. -/
def okGeoBody : Json := .obj [("coord", .obj [("lat", .num 2), ("lon", .num 30)])]

/-- A well-formed air-pollution body with `list[0].main.aqi = a`. -/
def okAqBody (a : Int) : Json :=
  .obj [("list", .arr [.obj [("main", .obj [("aqi", .num a)])]])]

/-- A provider that geocodes successfully and reports AQI `a`. -/
def httpOk (a : Int) : Http := fun url =>
  if url = geocode_url "Kigali" then
    { status_code := 200, headers := [], body := okGeoBody }
  else
    { status_code := 200, headers := [], body := okAqBody a }

/-- A provider that fails every request with status 404. -/
def http404 : Http := fun _ =>
  { status_code := 404, headers := [], body := .null }

/-- A provider that geocodes successfully, then rate-limits the
air-pollution request with `Retry-After: 7`. -/
def http429 : Http := fun url =>
  if url = geocode_url "Kigali" then
    { status_code := 200, headers := [], body := okGeoBody }
  else
    { status_code := 429, headers := [("Retry-After", "7")], body := .null }

/-- A provider that geocodes successfully, then fails the air-pollution
request with status 500. -/
def http500 : Http := fun url =>
  if url = geocode_url "Kigali" then
    { status_code := 200, headers := [], body := okGeoBody }
  else
    { status_code := 500, headers := [], body := .null }

/-- A provider that answers every request with status 200 and an empty
JSON object — a success status with a malformed body. -/
def httpMal : Http := fun _ =>
  { status_code := 200, headers := [], body := .obj [] }

/-- C1: for aqi in {1,2,3,4,5}, `get_health_advisory` returns the matching
advisory string of the six-row table, and for every other integer it
returns the Hazardous string; the function is a pure total Lean function
over all integer inputs. -/
theorem C1_get_health_advisory_table (n : Int) :
    get_health_advisory (Json.num n) =
      if n = 1 then "Good: Air quality is satisfactory."
      else if n = 2 then "Moderate: Air quality is acceptable."
      else if n = 3 then
        "Unhealthy for Sensitive Groups: Some members may experience health effects."
      else if n = 4 then "Unhealthy: Everyone may experience health effects."
      else if n = 5 then "Very Unhealthy: Health alert for everyone."
      else "Hazardous: Health warning of emergency conditions." := by
  simp only [get_health_advisory, pyEqInt]
  by_cases h1 : n = 1 <;> by_cases h2 : n = 2 <;> by_cases h3 : n = 3 <;>
    by_cases h4 : n = 4 <;> by_cases h5 : n = 5 <;> simp [h1, h2, h3, h4, h5]

/-- C10: the form-interface function returns exactly the value of
`get_air_quality`, for every world and location. -/
theorem C10_gradio_mirrors_fetcher (http : Http) (location : String) :
    gradio_interface http location = get_air_quality http location := rfl

/-- C9: both outbound URLs embed the literal API key
`b3789908d94f6e8732447989b53907f9` (it is a suffix of each built URL), and
the request handling is independent of the `OPENWEATHER_API_KEY`
environment variable: two runs differing only in the environment give
identical results. -/
theorem C9_hardcoded_key_env_unused (env env2 : String → Option String)
    (http : Http) (location : String) (lat lon : Json) :
    hardcoded_api_key.data <:+ (geocode_url location).data ∧
    hardcoded_api_key.data <:+ (aqi_url lat lon).data ∧
    get_air_quality_app env http location = get_air_quality_app env2 http location := by
  refine ⟨?_, ?_, rfl⟩
  · rw [geocode_url, String.data_append]
    exact List.suffix_append _ _
  · rw [aqi_url, String.data_append]
    exact List.suffix_append _ _

/-- C2: when geocoding resolves to coordinates and the air-quality request
answers 200 with `list[0].main.aqi = a`, `get_air_quality` returns exactly
the reading with the location echoed, the extracted aqi, and
`get_health_advisory` applied to it (and the only further effect is the
single air-quality GET). -/
theorem C2_success_reading (http : Http) (location : String) (lat lon : Json)
    (effs : List Eff) (a : Json)
    (hgeo : geocode_location http location = (.ok (some (lat, lon)), effs))
    (hstatus : (http (aqi_url lat lon)).status_code = 200)
    (haqi : extractAqi (http (aqi_url lat lon)).body = .ok a) :
    get_air_quality http location =
      (.ok (some (.reading location a (get_health_advisory a))),
        effs ++ [Eff.httpGet (aqi_url lat lon)]) := by
  simp only [get_air_quality, hgeo]
  simp only [fetch_aqi, hstatus, haqi, if_true]

/-- Witness for C2: the concrete provider `httpOk 3`. -/
theorem C2_success_reading_witness :
    get_air_quality (httpOk 3) "Kigali" =
      (.ok (some (.reading "Kigali" (Json.num 3)
          (get_health_advisory (Json.num 3)))),
        [Eff.httpGet (geocode_url "Kigali"), Eff.print "2 30"] ++
          [Eff.httpGet (aqi_url (Json.num 2) (Json.num 30))]) :=
  C2_success_reading (httpOk 3) "Kigali" (Json.num 2) (Json.num 30)
    [Eff.httpGet (geocode_url "Kigali"), Eff.print "2 30"] (Json.num 3)
    rfl rfl rfl

/-- C3: when geocoding fails (non-success status), `get_air_quality`
returns exactly the coordinates error dictionary, and the whole effect
trace is the single geocoding GET — no air-quality request is issued. -/
theorem C3_geocode_failure (http : Http) (location : String)
    (h : (http (geocode_url location)).status_code ≠ 200) :
    get_air_quality http location =
      (.ok (some (.error
          "Could not fetch location coordinates. Please check the location name.")),
        [Eff.httpGet (geocode_url location)]) := by
  simp only [get_air_quality, geocode_location, if_neg h]

/-- Witness for C3: the all-404 provider. -/
theorem C3_geocode_failure_witness :
    get_air_quality http404 "Kigali" =
      (.ok (some (.error
          "Could not fetch location coordinates. Please check the location name.")),
        [Eff.httpGet (geocode_url "Kigali")]) :=
  C3_geocode_failure http404 "Kigali" (by decide)

/-- C5: when coordinates resolve and the air-quality request answers a
status other than 200 and 429, `get_air_quality` returns exactly the
air-quality error dictionary. -/
theorem C5_provider_error (http : Http) (location : String) (lat lon : Json)
    (effs : List Eff)
    (hgeo : geocode_location http location = (.ok (some (lat, lon)), effs))
    (h200 : (http (aqi_url lat lon)).status_code ≠ 200)
    (h429 : (http (aqi_url lat lon)).status_code ≠ 429) :
    get_air_quality http location =
      (.ok (some (.error "Could not fetch air quality data.")),
        effs ++ [Eff.httpGet (aqi_url lat lon)]) := by
  simp only [get_air_quality, hgeo]
  simp only [fetch_aqi, if_neg h200, if_neg h429]

/-- Witness for C5: the provider that geocodes then answers 500. -/
theorem C5_provider_error_witness :
    get_air_quality http500 "Kigali" =
      (.ok (some (.error "Could not fetch air quality data.")),
        [Eff.httpGet (geocode_url "Kigali"), Eff.print "2 30"] ++
          [Eff.httpGet (aqi_url (Json.num 2) (Json.num 30))]) :=
  C5_provider_error http500 "Kigali" (Json.num 2) (Json.num 30)
    [Eff.httpGet (geocode_url "Kigali"), Eff.print "2 30"]
    rfl (by decide) (by decide)

/-- C4: when coordinates resolve and the air-quality request answers 429,
`get_air_quality` takes the provider `Retry-After` value `n` (which is 10
whenever the header is absent), prints the rate-limit notice, sleeps for
`n`, and falls through returning `None` — the effect trace shows exactly
one air-quality GET and one sleep, with no retry after it. -/
theorem C4_rate_limit_fallthrough (http : Http) (location : String)
    (lat lon : Json) (effs : List Eff) (n : Int)
    (hgeo : geocode_location http location = (.ok (some (lat, lon)), effs))
    (hstatus : (http (aqi_url lat lon)).status_code = 429)
    (hra : retryAfterValue (http (aqi_url lat lon)).headers = .ok n) :
    get_air_quality http location =
      (.ok none,
        (effs ++ [Eff.httpGet (aqi_url lat lon)]) ++
          [Eff.print ("Rate limit reached. Retrying in " ++ toString n ++
              " seconds..."),
            Eff.sleep n]) ∧
    ((http (aqi_url lat lon)).headers.lookup "Retry-After" = none → n = 10) := by
  constructor
  · simp only [get_air_quality, hgeo]
    simp [fetch_aqi, hstatus, hra]
  · intro hnone
    rw [retryAfterValue, hnone] at hra
    injection hra with h
    exact h.symm

/-- Witness for C4: the provider that geocodes then answers 429 with
`Retry-After: 7`. -/
theorem C4_rate_limit_fallthrough_witness :
    (get_air_quality http429 "Kigali" =
      (.ok none,
        ([Eff.httpGet (geocode_url "Kigali"), Eff.print "2 30"] ++
            [Eff.httpGet (aqi_url (Json.num 2) (Json.num 30))]) ++
          [Eff.print ("Rate limit reached. Retrying in " ++ toString (7 : Int) ++
              " seconds..."),
            Eff.sleep 7]) ∧
    ((http429 (aqi_url (Json.num 2) (Json.num 30))).headers.lookup
        "Retry-After" = none → (7 : Int) = 10)) :=
  C4_rate_limit_fallthrough http429 "Kigali" (Json.num 2) (Json.num 30)
    [Eff.httpGet (geocode_url "Kigali"), Eff.print "2 30"] 7 rfl rfl rfl

/-- C7: `geocode_location` returns the pair extracted from `coord.lat` and
`coord.lon` on a 200 response, and `None` on any non-success status, with
no distinction of cause (the same result for every non-200 status). -/
theorem C7_geocode_resolution (http : Http) (location : String) :
    ((http (geocode_url location)).status_code = 200 →
      ∀ lat lon,
        geocodeExtract (http (geocode_url location)).body = .ok (lat, lon) →
          geocode_location http location =
            (.ok (some (lat, lon)),
              [Eff.httpGet (geocode_url location),
                Eff.print (lat.pyStr ++ " " ++ lon.pyStr)])) ∧
    ((http (geocode_url location)).status_code ≠ 200 →
      geocode_location http location =
        (.ok none, [Eff.httpGet (geocode_url location)])) := by
  constructor
  · intro hs lat lon hex
    simp [geocode_location, hs, hex]
  · intro hs
    simp only [geocode_location, if_neg hs]

/-- Witness for C7: the successful provider `httpOk 3`. -/
theorem C7_geocode_resolution_witness :
    geocode_location (httpOk 3) "Kigali" =
      (.ok (some (Json.num 2, Json.num 30)),
        [Eff.httpGet (geocode_url "Kigali"),
          Eff.print ((Json.num 2).pyStr ++ " " ++ (Json.num 30).pyStr)]) :=
  (C7_geocode_resolution (httpOk 3) "Kigali").1 rfl (Json.num 2) (Json.num 30) rfl

/-- C8: on a 200 response whose body lacks the expected shape, the field
extraction raises an uncaught exception (`Except.error`) instead of
reaching the `None` or error-dictionary branch — and those branches are
reached only for non-success statuses: `geocode_location` can return
`None` only on a non-200 status, and `fetch_aqi` can return the
air-quality error dictionary only on a status that is neither 200 nor
429. -/
theorem C8_malformed_success_raises (http : Http) (location : String) :
    (∀ e, (http (geocode_url location)).status_code = 200 →
      geocodeExtract (http (geocode_url location)).body = .error e →
        geocode_location http location =
          (.error e, [Eff.httpGet (geocode_url location)])) ∧
    (∀ lat lon effs0 e, (http (aqi_url lat lon)).status_code = 200 →
      extractAqi (http (aqi_url lat lon)).body = .error e →
        fetch_aqi http location lat lon effs0 =
          (.error e, effs0 ++ [Eff.httpGet (aqi_url lat lon)])) ∧
    (∀ effs, geocode_location http location = (.ok none, effs) →
      (http (geocode_url location)).status_code ≠ 200) ∧
    (∀ lat lon effs0 effs,
      fetch_aqi http location lat lon effs0 =
        (.ok (some (.error "Could not fetch air quality data.")), effs) →
        (http (aqi_url lat lon)).status_code ≠ 200 ∧
          (http (aqi_url lat lon)).status_code ≠ 429) := by
  refine ⟨?_, ?_, ?_, ?_⟩
  · intro e hs hex
    simp [geocode_location, hs, hex]
  · intro lat lon effs0 e hs hex
    simp [fetch_aqi, hs, hex]
  · intro effs h hs
    simp only [geocode_location, hs, if_true] at h
    split at h <;> simp_all
  · intro lat lon effs0 effs h
    constructor <;> intro hs <;> simp only [fetch_aqi, hs] at h
    · simp only [if_true] at h
      split at h <;> simp_all
    · norm_num at h
      split at h <;> simp_all

/-- Witness for C8: the provider answering 200 with an empty JSON object
body, on which the geocoding extraction raises `KeyError` for `coord`. -/
theorem C8_malformed_success_raises_witness :
    geocode_location httpMal "Kigali" =
      (.error (.keyError "coord"), [Eff.httpGet (geocode_url "Kigali")]) :=
  (C8_malformed_success_raises httpMal "Kigali").1 (.keyError "coord") rfl rfl

/-- The spec's range invariant on an aqi field: an integer in [1,5]. -/
def aqiInRange (j : Json) : Prop := ∃ n : Int, j = .num n ∧ 1 ≤ n ∧ n ≤ 5

/-- C6 counterexample: a provider reporting `list[0].main.aqi = 7` is
accepted on the success path, and the returned reading carries the
out-of-range aqi 7 (with the Hazardous advisory) — the invariant that
every non-error reading has its aqi in [1,5] fails on the code. -/
theorem C6_counterexample :
    (get_air_quality (httpOk 7) "Kigali").1 =
      .ok (some (.reading "Kigali" (Json.num 7)
        "Hazardous: Health warning of emergency conditions.")) ∧
    ¬ aqiInRange (Json.num 7) := by
  refine ⟨rfl, ?_⟩
  rintro ⟨n, hn, h1, h5⟩
  have hn7 : (7 : Int) = n := Json.num.inj hn
  omega

/-- C6 amended: every non-error reading returned by `get_air_quality`
echoes the input location and carries `get_health_advisory` of its aqi
field; the aqi field itself is the raw provider value and is not
constrained to [1,5]. -/
theorem C6_reading_fields (http : Http) (location loc : String) (a : Json)
    (adv : String) (effs : List Eff)
    (h : get_air_quality http location =
      (.ok (some (.reading loc a adv)), effs)) :
    loc = location ∧ adv = get_health_advisory a := by
  rw [get_air_quality] at h
  rcases hg : geocode_location http location with ⟨r, es⟩
  rw [hg] at h
  cases r with
  | error e => simp at h
  | ok o =>
    cases o with
    | none => simp at h
    | some p =>
      obtain ⟨lat, lon⟩ := p
      simp only [fetch_aqi] at h
      split at h
      · split at h
        · simp_all
        · simp only [Prod.mk.injEq, Except.ok.injEq, Option.some.injEq,
            AQResult.reading.injEq] at h
          obtain ⟨⟨h1, h2, h3⟩, -⟩ := h
          subst h2
          exact ⟨h1.symm, h3.symm⟩
      · split at h
        · split at h <;> simp_all
        · simp_all

/-- Witness for the amended C6: the reading produced by `httpOk 3`. -/
theorem C6_reading_fields_witness :
    "Kigali" = "Kigali" ∧
    "Unhealthy for Sensitive Groups: Some members may experience health effects." =
      get_health_advisory (Json.num 3) :=
  C6_reading_fields (httpOk 3) "Kigali" "Kigali" (Json.num 3)
    "Unhealthy for Sensitive Groups: Some members may experience health effects."
    [Eff.httpGet (geocode_url "Kigali"), Eff.print "2 30",
      Eff.httpGet (aqi_url (Json.num 2) (Json.num 30))] rfl
